import Mathlib

/-!
Shallow embedding of the MVPH_Inventory core logic.

Sources embedded:
  - src/inventory/models.py: InventoryItem.is_low_stock, InventoryItem.stock_status,
    TRACKED_FIELDS, capture_item_state, log_item_changes.
  - src/inventory/forms.py: StockAdjustmentForm.apply_to.
  - src/inventory/notifications.py: queue_stock_alert, get_pending_alerts,
    clear_pending_alerts, send_stock_alert_email.
  - src/inventory/views.py: adjust_stock, item_create (their observable effects on
    the item, the change log and the session alert queue).

Numeric model: Django DecimalField(max_digits=10, decimal_places=2) values are exact
decimals; Python Decimal arithmetic at the default 28-digit context is exact for every
operation the code performs (sum of two 10/2-digit decimals, product with the 3-digit
constant 1.10), so quantities and reorder points are modelled as rationals with exact
arithmetic and exact comparisons.
-/

/-- models.py InventoryItem: the stored fields the core logic reads or writes.
The primary key is a string (str of the UUID); pk is non-empty once assigned.
earmarked_names stands for the names of the related earmarked_for recipes. -/
structure InventoryItem where
  pk : String
  name : String
  manufacturer : String
  category : String
  subcategory : String
  description : String
  quantity_on_hand : ℚ
  unit_of_measure : String
  reorder_point : ℚ
  notes : String
  earmarked_names : List String
deriving Repr, DecidableEq

/-- models.py InventoryItem.is_low_stock: quantity_on_hand <= reorder_point. -/
def InventoryItem.is_low_stock (it : InventoryItem) : Bool :=
  decide (it.quantity_on_hand ≤ it.reorder_point)

/-- models.py InventoryItem.stock_status: reorder when quantity <= reorder point,
low when quantity <= reorder_point * 1.10, else ok. -/
def InventoryItem.stock_status (it : InventoryItem) : String :=
  if it.quantity_on_hand ≤ it.reorder_point then "reorder"
  else if it.quantity_on_hand ≤ it.reorder_point * (11 / 10 : ℚ) then "low"
  else "ok"

/-- Two-digit zero padding for the fractional part of a decimal string. -/
def pad2 (n : Nat) : String :=
  if n < 10 then "0" ++ toString n else toString n

/-- str() of a two-place Decimal value (quantity_on_hand and reorder_point are
DecimalField(decimal_places=2) values, so str always shows two fractional digits). -/
def decStr (q : ℚ) : String :=
  let c : Int := (q * 100).num
  if c < 0 then
    "-" ++ toString (c.natAbs / 100) ++ "." ++ pad2 (c.natAbs % 100)
  else
    toString (c.natAbs / 100) ++ "." ++ pad2 (c.natAbs % 100)

/-- Insert a string into a sorted list (helper for the sorted() call in
capture_item_state). -/
def insertStr (x : String) : List String → List String
  | [] => [x]
  | y :: ys => if x ≤ y then x :: y :: ys else y :: insertStr x ys

/-- sorted() on a list of strings. -/
def sortStrings : List String → List String
  | [] => []
  | x :: xs => insertStr x (sortStrings xs)

/-- models.py TRACKED_FIELDS. -/
def TRACKED_FIELDS : List String :=
  ["name", "manufacturer", "category", "subcategory", "description",
   "quantity_on_hand", "unit_of_measure", "reorder_point", "notes"]

/-- models.py capture_item_state: stringifies each tracked field, then the
earmarked_for relation as a sorted comma-joined name list (empty string when the
item has no primary key yet, or no related recipes). A snapshot is the dict's
entry list in insertion order. -/
def capture_item_state (it : InventoryItem) : List (String × String) :=
  [("name", it.name),
   ("manufacturer", it.manufacturer),
   ("category", it.category),
   ("subcategory", it.subcategory),
   ("description", it.description),
   ("quantity_on_hand", decStr it.quantity_on_hand),
   ("unit_of_measure", it.unit_of_measure),
   ("reorder_point", decStr it.reorder_point),
   ("notes", it.notes),
   ("earmarked_for",
     if it.pk ≠ "" then
       (if it.earmarked_names = [] then ""
        else String.intercalate ", " (sortStrings it.earmarked_names))
     else "")]

/-- models.py ItemChangeLog: the fields log_item_changes fills in (item and user
references omitted; they never vary within one call and no claim reads them). -/
structure ItemChangeLog where
  action : String
  field_name : String := ""
  old_value : String := ""
  new_value : String := ""
deriving Repr, DecidableEq

/-- Python dict.get(field, "") over a snapshot's entry list (keys are unique). -/
def dGet : List (String × String) → String → String
  | [], _ => ""
  | (k, v) :: rest, f => if k = f then v else dGet rest f

/-- The loop body of log_item_changes: one entry per field whose old and new
string values differ, in the fixed field order. -/
def diffEntries (action : String) (os ns : List (String × String))
    (fields : List String) : List ItemChangeLog :=
  fields.filterMap fun f =>
    let ov := dGet os f
    let nv := dGet ns f
    if ov ≠ nv then
      some { action := action, field_name := f, old_value := ov, new_value := nv }
    else none

/-- models.py log_item_changes: for action created, a single entry with blank
field name and values; otherwise, when both snapshots are truthy (present and
non-empty), one entry per changed field over TRACKED_FIELDS plus earmarked_for;
otherwise nothing. -/
def log_item_changes (action : String)
    (old_state new_state : Option (List (String × String))) : List ItemChangeLog :=
  if action = "created" then
    [{ action := "created" }]
  else
    match old_state, new_state with
    | some os, some ns =>
        if os ≠ [] ∧ ns ≠ [] then
          diffEntries action os ns (TRACKED_FIELDS ++ ["earmarked_for"])
        else []
    | _, _ => []

/-- notifications.py StockAlert (TypedDict). -/
structure StockAlert where
  item_id : String
  item_name : String
  old_status : String
  new_status : String
  quantity : String
  reorder_point : String
  unit : String
  timestamp : String
deriving Repr, DecidableEq

/-- get_unit_of_measure_display: every UnitOfMeasure choice has label equal to
its stored value, so the display equals the stored string. -/
def unitDisplay (u : String) : String := u

/-- The StockAlert dict built inside queue_stock_alert; now stands for
datetime.now().isoformat(). -/
def mkStockAlert (now : String) (it : InventoryItem)
    (old_status new_status : String) : StockAlert :=
  { item_id := it.pk
    item_name := it.name
    old_status := old_status
    new_status := new_status
    quantity := decStr it.quantity_on_hand
    reorder_point := decStr it.reorder_point
    unit := unitDisplay it.unit_of_measure
    timestamp := now }

/-- notifications.py queue_stock_alert: returns early unless the new status is
low or reorder, or when the old status is already low or reorder; otherwise
appends one alert to the session list (alerts is session.get(SESSION_KEY, []),
and the result is stored back under the key). -/
def queue_stock_alert (now : String) (alerts : List StockAlert)
    (it : InventoryItem) (old_status new_status : String) : List StockAlert :=
  if new_status ≠ "low" ∧ new_status ≠ "reorder" then alerts
  else if old_status = "low" ∨ old_status = "reorder" then alerts
  else alerts ++ [mkStockAlert now it old_status new_status]

/-- notifications.py get_pending_alerts: session.get(SESSION_KEY, []); the
session value is none when the key is absent. -/
def get_pending_alerts (session : Option (List StockAlert)) : List StockAlert :=
  session.getD []

/-- notifications.py clear_pending_alerts: deletes the key when present, so the
post-state never holds the key. -/
def clear_pending_alerts (_session : Option (List StockAlert)) :
    Option (List StockAlert) :=
  none

/-- The user fields the mail path reads. -/
structure AuthUser where
  email : String
deriving Repr, DecidableEq

/-- notifications.py send_stock_alert_email: returns ok false when the alert
list is empty or the user has no email address, without touching the transport;
otherwise performs exactly one send_mail call with fail_silently=False, so a
transport error propagates and a successful send returns true. transport is the
outcome of that single send_mail call; the Nat counts sends performed. -/
def send_stock_alert_email (user : AuthUser) (alerts : List StockAlert)
    (transport : Except String Unit) : Except String (Bool × Nat) :=
  if alerts = [] then Except.ok (false, 0)
  else if user.email = "" then Except.ok (false, 0)
  else
    match transport with
    | Except.ok _ => Except.ok (true, 1)
    | Except.error e => Except.error e

/-- Modelled from the spec: the view `logout_with_notifications` is imported by
src/config/urls.py and exercised by the test suite but absent from
src/inventory/views.py. Spec 4.5: peek the session queue; if it is empty or the
user has no reachable contact address, return false without side effects;
otherwise send one batched notification via send_stock_alert_email and clear the
queue; a transport failure propagates (spec 7: the queue is then NOT cleared so
a later flush can retry); returns true iff a notification was actually sent.
The result carries (sent flag, number of sends, post-state of the session). -/
def logout_with_notifications (user : AuthUser)
    (session : Option (List StockAlert)) (transport : Except String Unit) :
    Except String (Bool × Nat × Option (List StockAlert)) :=
  match send_stock_alert_email user (get_pending_alerts session) transport with
  | Except.ok (true, n) => Except.ok (true, n, clear_pending_alerts session)
  | Except.ok (false, n) => Except.ok (false, n, session)
  | Except.error e => Except.error e

/-- forms.py StockAdjustmentForm.apply_to: add the adjustment to
quantity_on_hand, clamp at zero, persist only quantity_on_hand (and the
updated_at timestamp). -/
def StockAdjustmentForm.apply_to (adjustment : ℚ) (it : InventoryItem) :
    InventoryItem :=
  let q := it.quantity_on_hand + adjustment
  { it with quantity_on_hand := if q < 0 then 0 else q }

/-- views.py adjust_stock, POST branch with a valid form: calls form.apply_to
and re-renders the row. It writes no ItemChangeLog rows and never calls
queue_stock_alert, so the change-log output is empty and the session alert list
is returned unchanged. -/
def adjust_stock (it : InventoryItem) (adjustment : ℚ)
    (alerts : List StockAlert) :
    InventoryItem × List ItemChangeLog × List StockAlert :=
  (StockAdjustmentForm.apply_to adjustment it, [], alerts)

/-- views.py item_create, POST branch with a valid form: form.save() then a
redirect. It never calls log_item_changes, so the list of ItemChangeLog rows it
writes is empty. -/
def item_create (it : InventoryItem) : InventoryItem × List ItemChangeLog :=
  (it, [])

/-! ## Concrete items used by witnesses and counterexamples -/

/-- The item of spec Scenario A and of the integration test
test_adjust_stock_queues_alert_on_status_change: quantity 10.00, reorder point 5.00. -/
def alertTestHops : InventoryItem :=
  { pk := "1"
    name := "Alert Test Hops"
    manufacturer := ""
    category := "ingredient"
    subcategory := "hops"
    description := ""
    quantity_on_hand := 10
    unit_of_measure := "oz"
    reorder_point := 5
    notes := ""
    earmarked_names := [] }

/-- An item with quantity 1.00, as in the adjustment-floor property. -/
def oneUnitItem : InventoryItem :=
  { alertTestHops with name := "PBW Cleaner", quantity_on_hand := 1, reorder_point := 2 }

/-- An item in the low band: reorder_point 2.00 < quantity 2.10 <= 2.20. -/
def lowBandItem : InventoryItem :=
  { alertTestHops with quantity_on_hand := 21 / 10, reorder_point := 2 }

/-! ## C2: the status classifier -/

/-- C2: for every item with reorder point r >= 0, stock_status is reorder iff
quantity <= r; otherwise it is low iff quantity <= r * 1.10, and ok when above
that band; in particular for 0 < r < q <= 1.10 r the result is low. -/
theorem stock_status_classifies (it : InventoryItem)
    (hr : 0 ≤ it.reorder_point) :
    (it.stock_status = "reorder" ↔ it.quantity_on_hand ≤ it.reorder_point) ∧
    (¬ it.quantity_on_hand ≤ it.reorder_point →
      (it.stock_status = "low" ↔
        it.quantity_on_hand ≤ it.reorder_point * (11 / 10 : ℚ))) ∧
    (¬ it.quantity_on_hand ≤ it.reorder_point →
      ¬ it.quantity_on_hand ≤ it.reorder_point * (11 / 10 : ℚ) →
      it.stock_status = "ok") ∧
    (0 < it.quantity_on_hand → 0 < it.reorder_point →
      it.reorder_point < it.quantity_on_hand →
      it.quantity_on_hand ≤ it.reorder_point * (11 / 10 : ℚ) →
      it.stock_status = "low") := by
  unfold InventoryItem.stock_status
  refine ⟨?_, ?_, ?_, ?_⟩
  · by_cases hq : it.quantity_on_hand ≤ it.reorder_point
    · simp [hq]
    · simp only [if_neg hq]
      constructor
      · intro h; split at h <;> simp_all
      · intro h; exact absurd h hq
  · intro hq
    simp only [if_neg hq]
    constructor
    · intro h; split at h <;> simp_all
    · intro h; simp [h]
  · intro hq hb
    simp [hq, hb]
  · intro _ _ hlt hb
    simp [not_le.mpr hlt, hb]

/-- Witness for C2 at the low-band item (q = 2.10, r = 2.00). -/
theorem stock_status_classifies_witness : lowBandItem.stock_status = "low" :=
  (stock_status_classifies lowBandItem (by norm_num [lowBandItem, alertTestHops])).2.2.2
    (by norm_num [lowBandItem, alertTestHops])
    (by norm_num [lowBandItem, alertTestHops])
    (by norm_num [lowBandItem, alertTestHops])
    (by norm_num [lowBandItem, alertTestHops])

/-! ## C10: is_low_stock agrees with the reorder branch of stock_status -/

/-- C10: for every item, is_low_stock is true iff stock_status is reorder, and
is_low_stock is false on every item whose status is low. -/
theorem is_low_stock_iff_status_reorder (it : InventoryItem) :
    (it.is_low_stock = true ↔ it.stock_status = "reorder") ∧
    (it.stock_status = "low" → it.is_low_stock = false) := by
  unfold InventoryItem.is_low_stock InventoryItem.stock_status
  constructor
  · constructor
    · intro h
      have hq : it.quantity_on_hand ≤ it.reorder_point := of_decide_eq_true h
      simp [hq]
    · intro h
      by_cases hq : it.quantity_on_hand ≤ it.reorder_point
      · simp [hq]
      · simp only [if_neg hq] at h
        split at h <;> simp_all
  · intro h
    by_cases hq : it.quantity_on_hand ≤ it.reorder_point
    · simp [hq] at h
    · simp [hq]

/-- Witness for C10: the low-band item has status low and is_low_stock false. -/
theorem is_low_stock_iff_status_reorder_witness :
    lowBandItem.is_low_stock = false :=
  (is_low_stock_iff_status_reorder lowBandItem).2
    (by norm_num [InventoryItem.stock_status, lowBandItem, alertTestHops])

/-! ## C4: the adjustment floor -/

/-- C4: for every item and delta the persisted quantity is max(0, quantity +
delta), hence never negative; in particular quantity 1.00 adjusted by -100.00
becomes 0.00. -/
theorem apply_to_clamps_at_zero (it : InventoryItem) (delta : ℚ) :
    (StockAdjustmentForm.apply_to delta it).quantity_on_hand =
      max 0 (it.quantity_on_hand + delta) ∧
    0 ≤ (StockAdjustmentForm.apply_to delta it).quantity_on_hand ∧
    (StockAdjustmentForm.apply_to (-100) oneUnitItem).quantity_on_hand = 0 := by
  unfold StockAdjustmentForm.apply_to
  refine ⟨?_, ?_, ?_⟩
  · by_cases h : it.quantity_on_hand + delta < 0
    · simp [h, le_of_lt h]
    · simp only [if_neg h]
      exact (max_eq_right (not_lt.mp h)).symm
  · by_cases h : it.quantity_on_hand + delta < 0
    · simp [h]
    · simp [h, not_lt.mp h]
  · norm_num [oneUnitItem, alertTestHops]

/-! ## C3: the alert-queue enqueue policy -/

/-- C3: queue_stock_alert leaves the session list unchanged when the new status
is not critical or the old status is already critical, and otherwise appends
exactly one alert after the existing ones; in particular the transition low to
reorder adds nothing and ok to low adds exactly one. -/
theorem queue_stock_alert_policy (now : String) (alerts : List StockAlert)
    (it : InventoryItem) (old_status new_status : String) :
    (new_status ≠ "low" ∧ new_status ≠ "reorder" →
      queue_stock_alert now alerts it old_status new_status = alerts) ∧
    (old_status = "low" ∨ old_status = "reorder" →
      queue_stock_alert now alerts it old_status new_status = alerts) ∧
    ((new_status = "low" ∨ new_status = "reorder") →
      old_status ≠ "low" → old_status ≠ "reorder" →
      queue_stock_alert now alerts it old_status new_status =
        alerts ++ [mkStockAlert now it old_status new_status]) ∧
    queue_stock_alert now alerts it "low" "reorder" = alerts ∧
    queue_stock_alert now alerts it "ok" "low" =
      alerts ++ [mkStockAlert now it "ok" "low"] := by
  unfold queue_stock_alert
  refine ⟨?_, ?_, ?_, ?_, ?_⟩
  · intro h
    simp [h]
  · intro h
    by_cases hn : new_status ≠ "low" ∧ new_status ≠ "reorder"
    · simp [hn]
    · simp [hn, h]
  · intro hn ho1 ho2
    have hcrit : ¬ (new_status ≠ "low" ∧ new_status ≠ "reorder") := by
      rcases hn with h | h <;> simp [h]
    simp [hcrit, ho1, ho2]
  · simp
  · simp

/-- Witness for C3: from an empty session list, the transition low to reorder
queues nothing and the transition ok to low queues exactly one alert. -/
theorem queue_stock_alert_policy_witness :
    queue_stock_alert "t0" [] alertTestHops "low" "reorder" = [] ∧
    queue_stock_alert "t0" [] alertTestHops "ok" "low" =
      [mkStockAlert "t0" alertTestHops "ok" "low"] := by
  refine ⟨?_, ?_⟩
  · exact (queue_stock_alert_policy "t0" [] alertTestHops "low" "reorder").2.1
      (Or.inl rfl)
  · exact (queue_stock_alert_policy "t0" [] alertTestHops "ok" "low").2.2.1
      (Or.inl rfl) (by decide) (by decide)

/-! ## Lemmas about the diff loop of log_item_changes -/

/-- Unfolding one step of the diff loop. -/
theorem diffEntries_cons (a : String) (os ns : List (String × String))
    (g : String) (gs : List String) :
    diffEntries a os ns (g :: gs) =
      (if dGet os g ≠ dGet ns g then
        [{ action := a, field_name := g, old_value := dGet os g,
           new_value := dGet ns g }]
       else []) ++ diffEntries a os ns gs := by
  unfold diffEntries
  rw [List.filterMap_cons]
  by_cases h : dGet os g ≠ dGet ns g
  · simp [h]
  · simp [h]

/-- Fields whose old and new values all agree produce no entries. -/
theorem diffEntries_eq_nil (a : String) (os ns : List (String × String)) :
    ∀ L : List String, (∀ f ∈ L, dGet os f = dGet ns f) →
      diffEntries a os ns L = [] := by
  intro L
  induction L with
  | nil => intro _; rfl
  | cons g gs ih =>
      intro h
      rw [diffEntries_cons]
      have hg : dGet os g = dGet ns g := h g (List.mem_cons_self g gs)
      rw [if_neg (by simp [hg]), List.nil_append]
      exact ih fun f hf => h f (List.mem_cons_of_mem g hf)

/-- Every entry the diff loop emits carries the action, a field from the list,
the two looked-up values, and witnesses an actual difference. -/
theorem diffEntries_mem_spec (a : String) (os ns : List (String × String)) :
    ∀ L : List String, ∀ e ∈ diffEntries a os ns L,
      e.action = a ∧ e.field_name ∈ L ∧ e.old_value = dGet os e.field_name ∧
      e.new_value = dGet ns e.field_name ∧
      dGet os e.field_name ≠ dGet ns e.field_name := by
  intro L
  induction L with
  | nil => intro e he; simp [diffEntries] at he
  | cons g gs ih =>
      intro e he
      rw [diffEntries_cons] at he
      rcases List.mem_append.mp he with h | h
      · by_cases hg : dGet os g ≠ dGet ns g
        · rw [if_pos hg] at h
          simp only [List.mem_singleton] at h
          subst h
          exact ⟨rfl, List.mem_cons_self g gs, rfl, rfl, hg⟩
        · rw [if_neg hg] at h
          simp at h
      · obtain ⟨h1, h2, h3, h4, h5⟩ := ih e h
        exact ⟨h1, List.mem_cons_of_mem g h2, h3, h4, h5⟩

/-- No entry is emitted for a field outside the iterated list. -/
theorem diffEntries_filter_not_mem (a : String) (os ns : List (String × String))
    (f : String) (L : List String) (hf : f ∉ L) :
    (diffEntries a os ns L).filter (fun e => e.field_name = f) = [] := by
  rw [List.filter_eq_nil]
  intro e he
  obtain ⟨-, h2, -, -, -⟩ := diffEntries_mem_spec a os ns L e he
  simp only [decide_eq_true_eq]
  intro hef
  exact hf (hef ▸ h2)

/-- No entry is emitted for a field whose values agree. -/
theorem diffEntries_filter_same (a : String) (os ns : List (String × String))
    (f : String) (L : List String) (h : dGet os f = dGet ns f) :
    (diffEntries a os ns L).filter (fun e => e.field_name = f) = [] := by
  rw [List.filter_eq_nil]
  intro e he
  obtain ⟨-, -, -, -, h5⟩ := diffEntries_mem_spec a os ns L e he
  simp only [decide_eq_true_eq]
  intro hef
  rw [hef] at h5
  exact h5 h

/-- Exactly one entry is emitted for a changed field of a duplicate-free list. -/
theorem diffEntries_filter_changed (a : String) (os ns : List (String × String))
    (f : String) :
    ∀ L : List String, L.Nodup → f ∈ L → dGet os f ≠ dGet ns f →
      (diffEntries a os ns L).filter (fun e => e.field_name = f) =
        [{ action := a, field_name := f, old_value := dGet os f,
           new_value := dGet ns f }] := by
  intro L
  induction L with
  | nil => intro _ hf; simp at hf
  | cons g gs ih =>
      intro hnd hf hd
      obtain ⟨hg_not, hnd_gs⟩ := List.nodup_cons.mp hnd
      rw [diffEntries_cons, List.filter_append]
      rcases List.mem_cons.mp hf with hfg | hfg
      · subst hfg
        rw [if_pos hd, diffEntries_filter_not_mem a os ns f gs hg_not]
        simp
      · have hgf : g ≠ f := by
          rintro rfl
          exact hg_not hfg
        have hhead :
            (if dGet os g ≠ dGet ns g then
              [{ action := a, field_name := g, old_value := dGet os g,
                 new_value := dGet ns g }]
             else ([] : List ItemChangeLog)).filter
              (fun e => e.field_name = f) = [] := by
          split
          · simp [hgf]
          · simp
        rw [hhead, List.nil_append]
        exact ih hnd_gs hfg hd

/-- When only the key k can differ, the diff loop emits at most one entry and
every emitted entry is for k. -/
theorem diffEntries_only_key (a : String) (os ns : List (String × String))
    (k : String) :
    ∀ L : List String, L.Nodup →
      (∀ f ∈ L, f ≠ k → dGet os f = dGet ns f) →
      (diffEntries a os ns L).length ≤ 1 ∧
      ∀ e ∈ diffEntries a os ns L, e.field_name = k := by
  intro L
  induction L with
  | nil =>
      intro _ _
      exact ⟨by simp [diffEntries], by simp [diffEntries]⟩
  | cons g gs ih =>
      intro hnd h
      obtain ⟨hg_not, hnd_gs⟩ := List.nodup_cons.mp hnd
      by_cases hgk : g = k
      · subst hgk
        have hgs_nil : diffEntries a os ns gs = [] :=
          diffEntries_eq_nil a os ns gs fun f hf =>
            h f (List.mem_cons_of_mem g hf) (by rintro rfl; exact hg_not hf)
        rw [diffEntries_cons, hgs_nil, List.append_nil]
        constructor
        · split <;> simp
        · intro e he
          split at he
          · simp only [List.mem_singleton] at he
            subst he
            rfl
          · simp at he
      · have hg : dGet os g = dGet ns g :=
          h g (List.mem_cons_self g gs) hgk
        rw [diffEntries_cons, if_neg (by simp [hg]), List.nil_append]
        exact ih hnd_gs fun f hf hfk => h f (List.mem_cons_of_mem g hf) hfk

/-- log_item_changes reduces to the diff loop for a non-created action with two
non-empty snapshots. -/
theorem log_item_changes_eq_diff (action : String) (ha : action ≠ "created")
    (os ns : List (String × String)) (hos : os ≠ []) (hns : ns ≠ []) :
    log_item_changes action (some os) (some ns) =
      diffEntries action os ns (TRACKED_FIELDS ++ ["earmarked_for"]) := by
  unfold log_item_changes
  rw [if_neg ha]
  simp [hos, hns]

/-! ## C6: the diff engine for updated and stock_adjusted actions -/

/-- C6: with both snapshots present (non-empty), log_item_changes emits exactly
one entry per tracked field whose old string value differs from its new one,
carrying the field name and both values, emits nothing for unchanged fields,
and emits zero entries when the snapshots are identical. -/
theorem log_item_changes_diffs (action : String)
    (ha : action = "updated" ∨ action = "stock_adjusted")
    (os ns : List (String × String)) (hos : os ≠ []) (hns : ns ≠ []) :
    (∀ f ∈ TRACKED_FIELDS ++ ["earmarked_for"], dGet os f ≠ dGet ns f →
      (log_item_changes action (some os) (some ns)).filter
          (fun e => e.field_name = f) =
        [{ action := action, field_name := f, old_value := dGet os f,
           new_value := dGet ns f }]) ∧
    (∀ f : String, dGet os f = dGet ns f →
      (log_item_changes action (some os) (some ns)).filter
          (fun e => e.field_name = f) = []) ∧
    (∀ e ∈ log_item_changes action (some os) (some ns),
      e.action = action ∧ dGet os e.field_name ≠ dGet ns e.field_name ∧
      e.old_value = dGet os e.field_name ∧
      e.new_value = dGet ns e.field_name) ∧
    (os = ns → log_item_changes action (some os) (some ns) = []) := by
  have hc : action ≠ "created" := by
    rcases ha with h | h <;> subst h <;> decide
  rw [log_item_changes_eq_diff action hc os ns hos hns]
  refine ⟨?_, ?_, ?_, ?_⟩
  · intro f hf hd
    exact diffEntries_filter_changed action os ns f _ (by decide) hf hd
  · intro f h
    exact diffEntries_filter_same action os ns f _ h
  · intro e he
    obtain ⟨h1, -, h3, h4, h5⟩ := diffEntries_mem_spec action os ns _ e he
    exact ⟨h1, h5, h3, h4⟩
  · intro h
    subst h
    exact diffEntries_eq_nil action os os _ fun f _ => rfl

/-- Witness for C6 at spec Scenario D: name changes from A to B, quantity stays
10.00; exactly one name entry and no quantity entry. -/
theorem log_item_changes_diffs_witness :
    (log_item_changes "updated"
        (some [("name", "A"), ("quantity_on_hand", "10.00")])
        (some [("name", "B"), ("quantity_on_hand", "10.00")])).filter
        (fun e => e.field_name = "name") =
      [{ action := "updated", field_name := "name", old_value := "A",
         new_value := "B" }] ∧
    (log_item_changes "updated"
        (some [("name", "A"), ("quantity_on_hand", "10.00")])
        (some [("name", "B"), ("quantity_on_hand", "10.00")])).filter
        (fun e => e.field_name = "quantity_on_hand") = [] := by
  constructor
  · have h := (log_item_changes_diffs "updated" (Or.inl rfl)
      [("name", "A"), ("quantity_on_hand", "10.00")]
      [("name", "B"), ("quantity_on_hand", "10.00")]
      (by decide) (by decide)).1 "name" (by decide) (by decide)
    simpa using h
  · have h := (log_item_changes_diffs "updated" (Or.inl rfl)
      [("name", "A"), ("quantity_on_hand", "10.00")]
      [("name", "B"), ("quantity_on_hand", "10.00")]
      (by decide) (by decide)).2.1 "quantity_on_hand" (by decide)
    simpa using h

/-! ## C9: an empty snapshot behaves like an absent one -/

/-- C9: for updated or stock_adjusted, an empty dict on either side yields no
entries, exactly as when the snapshot is None. -/
theorem log_item_changes_empty_snapshot (action : String)
    (ha : action = "updated" ∨ action = "stock_adjusted")
    (os : List (String × String)) (ns : Option (List (String × String))) :
    log_item_changes action (some []) ns = [] ∧
    log_item_changes action (some os) (some []) = [] ∧
    log_item_changes action (some []) ns = log_item_changes action none ns ∧
    log_item_changes action (some os) (some []) =
      log_item_changes action (some os) none := by
  have hc : action ≠ "created" := by
    rcases ha with h | h <;> subst h <;> decide
  rcases ns with _ | ns' <;> simp [log_item_changes, hc]

/-- Witness for C9: an empty old snapshot with a non-empty new one yields no
entries. -/
theorem log_item_changes_empty_snapshot_witness :
    log_item_changes "updated" (some []) (some [("name", "B")]) = [] :=
  (log_item_changes_empty_snapshot "updated" (Or.inl rfl)
    [("name", "A")] (some [("name", "B")])).1

/-! ## C8: stock adjustment mutates quantity_on_hand only -/

/-- C8: apply_to leaves every stored field except quantity_on_hand unchanged,
so diffing the before and after snapshots yields at most one change-log entry,
and any such entry is for quantity_on_hand. -/
theorem adjust_stock_frame (it : InventoryItem) (delta : ℚ) :
    (StockAdjustmentForm.apply_to delta it).pk = it.pk ∧
    (StockAdjustmentForm.apply_to delta it).name = it.name ∧
    (StockAdjustmentForm.apply_to delta it).manufacturer = it.manufacturer ∧
    (StockAdjustmentForm.apply_to delta it).category = it.category ∧
    (StockAdjustmentForm.apply_to delta it).subcategory = it.subcategory ∧
    (StockAdjustmentForm.apply_to delta it).description = it.description ∧
    (StockAdjustmentForm.apply_to delta it).unit_of_measure =
      it.unit_of_measure ∧
    (StockAdjustmentForm.apply_to delta it).reorder_point = it.reorder_point ∧
    (StockAdjustmentForm.apply_to delta it).notes = it.notes ∧
    (StockAdjustmentForm.apply_to delta it).earmarked_names =
      it.earmarked_names ∧
    (log_item_changes "stock_adjusted" (some (capture_item_state it))
        (some (capture_item_state (StockAdjustmentForm.apply_to delta it)))).length
      ≤ 1 ∧
    ∀ e ∈ log_item_changes "stock_adjusted" (some (capture_item_state it))
        (some (capture_item_state (StockAdjustmentForm.apply_to delta it))),
      e.field_name = "quantity_on_hand" := by
  have hkeys : ∀ f ∈ TRACKED_FIELDS ++ ["earmarked_for"],
      f ≠ "quantity_on_hand" →
      dGet (capture_item_state it) f =
        dGet (capture_item_state (StockAdjustmentForm.apply_to delta it)) f := by
    intro f hf hfk
    simp only [TRACKED_FIELDS, List.mem_append, List.mem_cons,
      List.mem_singleton, List.not_mem_nil, or_false] at hf
    rcases hf with (rfl | rfl | rfl | rfl | rfl | rfl | rfl | rfl | rfl) | rfl
    · simp [capture_item_state, dGet, StockAdjustmentForm.apply_to]
    · simp [capture_item_state, dGet, StockAdjustmentForm.apply_to]
    · simp [capture_item_state, dGet, StockAdjustmentForm.apply_to]
    · simp [capture_item_state, dGet, StockAdjustmentForm.apply_to]
    · simp [capture_item_state, dGet, StockAdjustmentForm.apply_to]
    · exact absurd rfl hfk
    · simp [capture_item_state, dGet, StockAdjustmentForm.apply_to]
    · simp [capture_item_state, dGet, StockAdjustmentForm.apply_to]
    · simp [capture_item_state, dGet, StockAdjustmentForm.apply_to]
    · simp [capture_item_state, dGet, StockAdjustmentForm.apply_to]
  have hrw := log_item_changes_eq_diff "stock_adjusted" (by decide)
    (capture_item_state it)
    (capture_item_state (StockAdjustmentForm.apply_to delta it))
    (by simp [capture_item_state]) (by simp [capture_item_state])
  have hmain := diffEntries_only_key "stock_adjusted" (capture_item_state it)
    (capture_item_state (StockAdjustmentForm.apply_to delta it))
    "quantity_on_hand" (TRACKED_FIELDS ++ ["earmarked_for"]) (by decide)
    (fun f hf hfk => hkeys f hf hfk)
  refine ⟨rfl, rfl, rfl, rfl, rfl, rfl, rfl, rfl, rfl, rfl, ?_, ?_⟩
  · rw [hrw]
    exact hmain.1
  · rw [hrw]
    exact hmain.2

/-! ## C5: the logout flush -/

/-- C5: the flush returns false with the session untouched and zero sends when
the pending list is empty or the user has no email; it returns true exactly
when the single batched send succeeded; and a transport failure propagates as
an error instead of being swallowed. -/
theorem logout_flush_semantics (user : AuthUser)
    (session : Option (List StockAlert)) (transport : Except String Unit)
    (err : String) :
    (get_pending_alerts session = [] ∨ user.email = "" →
      logout_with_notifications user session transport =
        Except.ok (false, 0, session)) ∧
    (get_pending_alerts session ≠ [] → user.email ≠ "" →
      transport = Except.ok () →
      logout_with_notifications user session transport =
        Except.ok (true, 1, none)) ∧
    (get_pending_alerts session ≠ [] → user.email ≠ "" →
      transport = Except.error err →
      logout_with_notifications user session transport = Except.error err) ∧
    (∀ b n s, logout_with_notifications user session transport =
        Except.ok (b, n, s) → (b = true ↔ n = 1)) := by
  unfold logout_with_notifications send_stock_alert_email clear_pending_alerts
  refine ⟨?_, ?_, ?_, ?_⟩
  · intro h
    rcases h with h | h
    · simp [h]
    · by_cases ha : get_pending_alerts session = []
      · simp [ha]
      · simp [ha, h]
  · intro ha he ht
    subst ht
    simp [ha, he]
  · intro ha he ht
    subst ht
    simp [ha, he]
  · intro b n s h
    by_cases ha : get_pending_alerts session = [] <;>
      by_cases he : user.email = "" <;>
      rcases transport with u | e <;>
      simp [ha, he] at h <;>
      simp_all <;>
      omega

/-- Witness for C5: a one-alert session, a user with an address and a
successful transport yield a true result, one send and a cleared queue. -/
theorem logout_flush_semantics_witness :
    logout_with_notifications { email := "staff@example.com" }
      (some [mkStockAlert "t0" alertTestHops "ok" "low"]) (Except.ok ()) =
      Except.ok (true, 1, none) :=
  (logout_flush_semantics { email := "staff@example.com" }
      (some [mkStockAlert "t0" alertTestHops "ok" "low"]) (Except.ok ())
      "boom").2.1 (by decide) (by decide) rfl

/-! ## C1: the adjust_stock view at spec Scenario A -/

/-- C1 evaluation at Scenario A (quantity 10.00, reorder point 5.00, delta
-4.50): the view persists quantity 5.50 whose status is low, but it writes no
stock_adjusted change-log entry and queues no alert, because the POST branch
only calls form.apply_to. -/
theorem adjust_stock_scenario_a_no_log_no_alert :
    (adjust_stock alertTestHops (-(9 / 2 : ℚ)) []).1.quantity_on_hand =
      11 / 2 ∧
    (adjust_stock alertTestHops (-(9 / 2 : ℚ)) []).1.stock_status = "low" ∧
    (adjust_stock alertTestHops (-(9 / 2 : ℚ)) []).2.1 = [] ∧
    (adjust_stock alertTestHops (-(9 / 2 : ℚ)) []).2.2 = [] := by
  refine ⟨?_, ?_, rfl, rfl⟩
  · norm_num [adjust_stock, StockAdjustmentForm.apply_to, alertTestHops]
  · norm_num [adjust_stock, StockAdjustmentForm.apply_to,
      InventoryItem.stock_status, alertTestHops]

/-! ## C7: the item_create view writes no created entry -/

/-- C7 evaluation: the create view saves the item but writes zero ItemChangeLog
rows, while the diff engine's created action, had the view called it, would
produce exactly one blank-field entry. -/
theorem item_create_writes_no_log :
    (item_create alertTestHops).2 = [] ∧
    log_item_changes "created" none none = [{ action := "created" }] :=
  ⟨rfl, rfl⟩
